import Mathlib

/-!
Shallow embedding of the `timing` library (package `timering`, repository
`ruzickbelle/python-timing`), source file `src/timing/timing.py` together with
the module-level convenience functions of `src/timing/__init__.py`.

Modelling conventions:
* The monotonic clock `time.time_ns()` is nondeterministic input; every
  operation that reads the clock takes the reading as an explicit `Int`
  argument (`now`, or `now1`/`now2` when the source reads the clock twice).
* Python exceptions together with mutable object state are modelled by
  returning both the `Except` outcome and the post-call `Timer` value: a
  raised exception does not roll back field assignments made before the
  raise, exactly as in Python.
* Callbacks are identified by a `Nat` id; an operation returns the list of
  callback invocations it performed, each as (callback id, delivered value).
* Python `int` values are modelled as `Int`. Python floats are IEEE-754
  binary64 values, every one of which is a rational number; they are modelled
  as their exact rational values in `ℚ`, with `fl64 : ℚ → ℚ` the
  round-to-nearest-even rounding onto the binary64 grid (exact for the normal
  range; all values arising in this development are normal). `n / 1e3` in
  CPython converts the int to binary64 (one correctly-rounded step) and then
  performs a correctly-rounded binary64 division, i.e. `fl64 (fl64 n / 1000)`.
-/

namespace Timing

/-- Binary length of a natural number (`0` for `0`), by fuel recursion; the
fuel `4096` covers every magnitude below `2 ^ 4096`, far beyond the finite
binary64 range, and the recursion stops early at `0`. -/
def bitsAux : Nat → Nat → Nat
  | 0, _ => 0
  | fuel + 1, n => if n = 0 then 0 else bitsAux fuel (n / 2) + 1

/-- Binary length: `bitlen n = ⌊log₂ n⌋ + 1` for `n > 0`. -/
def bitlen (n : Nat) : Nat := bitsAux 4096 n

/-- Round a rational to the nearest integer, ties to even. -/
def roundHalfEven (x : ℚ) : ℤ :=
  let f := ⌊x⌋
  let r := x - (f : ℚ)
  if r < 1 / 2 then f
  else if 1 / 2 < r then f + 1
  else if f % 2 = 0 then f else f + 1

/-- `⌊log₂ q⌋` for a positive rational `q`, from the binary lengths of
numerator and denominator with a one-step correction. -/
def exponentOf (q : ℚ) : ℤ :=
  let e0 : ℤ := (bitlen q.num.natAbs : ℤ) - (bitlen q.den : ℤ)
  if q < 2 ^ e0 then e0 - 1 else e0

/-- IEEE-754 binary64 round-to-nearest-even, as a map on exact rational
values: scale the magnitude into the mantissa range `[2^52, 2^53)`, round
half-to-even, and scale back. Faithful for results in the binary64 normal
range, which covers every value in this development (subnormal underflow and
overflow to infinity are not modelled). -/
def fl64 (q : ℚ) : ℚ :=
  if q = 0 then 0
  else
    let s : ℚ := if q < 0 then -1 else 1
    let aq := |q|
    let e := exponentOf aq
    s * (roundHalfEven (aq * 2 ^ (52 - e)) : ℚ) * 2 ^ (e - 52)

/-- CPython `n / d` for an `int` `n` and a float `d` (here always the exact
powers of ten `1e3`, `1e6`, `1e9`): the int is first converted to binary64
(correctly rounded), then divided by `d` with one more correctly-rounded
step. -/
def pyDivNs (n : Int) (d : ℚ) : ℚ := fl64 (fl64 (n : ℚ) / d)

/-- A delivered timer result. Python's `int | float` results are modelled
uniformly in `ℚ` (see the float-division convention above). -/
abbrev TimerResult := ℚ

/-- The exceptions the library raises: `TimerStateError(msg)` and
`ValueError(msg)`, with the exact source messages. -/
inductive PyError where
  | timerStateError (msg : String)
  | valueError (msg : String)
deriving DecidableEq, Repr

/-- `TimerStateError` raised by `start` on a running timer without `replace`. -/
def alreadyRunningError : PyError :=
  .timerStateError "The timer is already running. Give `replace=True` to restart the timer anyway."

/-- `TimerStateError` raised by `current`/`stop` (hence `restart`) while idle. -/
def notRunningError : PyError :=
  .timerStateError "The timer is not running."

/-- `TimerStateError` raised by `get` when no result is stored. -/
def noResultError : PyError :=
  .timerStateError "No result available. Use `stop()` or exit the context before accessing the result."

/-- `ValueError` raised by `get` for an unrecognized unit string. -/
def unsupportedUnitError (u : String) : PyError :=
  .valueError ("Unsupported unit \"" ++ u ++ "\".")

/-- The `callback` argument of `current`/`stop`/`restart`/`measure`
(`bool | TimerCallback` in the source): the literal `True`, the literal
`False`, or an explicitly supplied one-argument function (identified by id;
Python function objects are always truthy). -/
inductive CallbackArg where
  | isTrue
  | isFalse
  | func (c : Nat)
deriving DecidableEq, Repr

/-- One callback invocation: (callback id, value delivered to it). -/
abbrev Inv := Nat × TimerResult

/-- The `Timer` object state: fields `starttime`, `result`, `unit`,
`callback` exactly as declared in `Timer.__slots__`. -/
structure Timer where
  starttime : Option Int
  result : Option Int
  unit : String
  callback : Option Nat
deriving DecidableEq, Repr

/-- `Timer.__init__(unit, callback)`: starts idle with no result. -/
def mkTimer (unit : String) (callback : Option Nat) : Timer :=
  { starttime := none, result := none, unit := unit, callback := callback }

/-- The four unit strings recognized by `Timer.get` (the `TimerUnit`
literal type of the source). -/
def supportedUnit (u : String) : Bool :=
  u = "seconds" || u = "milliseconds" || u = "microseconds" || u = "nanoseconds"

/-- A well-formed timer: its default unit respects the constructor's
`unit: TimerUnit` type annotation. -/
def Timer.WF (t : Timer) : Prop :=
  supportedUnit t.unit = true

/-- `Timer.start(replace, clear)`: raises `TimerStateError` if running and
`replace` is falsy; otherwise records `now` and, if `clear`, drops the
stored result. On the error path the object is unchanged. -/
def Timer.start (t : Timer) (now : Int) (replace : Bool) (clear : Bool) :
    Except PyError Unit × Timer :=
  if t.starttime.isSome && !replace then
    (.error alreadyRunningError, t)
  else
    (.ok (), { t with starttime := some now,
                      result := if clear then none else t.result })

/-- `Timer.get(unit)`: pure read of the stored result, converted to the
requested unit (default `self.unit`); raises `TimerStateError` with no
stored result, `ValueError` for an unrecognized unit. The `nanoseconds`
branch returns the stored int unchanged; the other branches are Python
float divisions `ret / 1e3`, `ret / 1e6`, `ret / 1e9` (see `pyDivNs`). -/
def Timer.get (t : Timer) (unit : Option String) : Except PyError TimerResult :=
  match t.result with
  | none => .error noResultError
  | some ret =>
    let u := match unit with
      | none => t.unit
      | some u => u
    if u = "nanoseconds" then .ok (ret : ℚ)
    else if u = "microseconds" then .ok (pyDivNs ret 1000)
    else if u = "milliseconds" then .ok (pyDivNs ret 1000000)
    else if u = "seconds" then .ok (pyDivNs ret 1000000000)
    else .error (unsupportedUnitError u)

/-- `Timer._get_and_callback(unit, callback)`: `get`, then callback
dispatch — `callback is True` selects `self.callback`; then a Python
truthiness test (`False`/`None` falsy, function objects truthy) decides
whether to invoke. Pure apart from the returned invocation list. -/
def Timer.get_and_callback (t : Timer) (unit : Option String)
    (callback : CallbackArg) : Except PyError (TimerResult × List Inv) :=
  match t.get unit with
  | .error e => .error e
  | .ok ret =>
    let cb : Option Nat :=
      match callback with
      | .isTrue => t.callback
      | .isFalse => none
      | .func c => some c
    match cb with
    | none => .ok (ret, [])
    | some c => .ok (ret, [(c, ret)])

/-- `Timer.current(unit, callback)`: raises `TimerStateError` if idle; else
stores `now - starttime` as the result (this assignment persists even when
`_get_and_callback` then raises for a bad unit) and stays running. -/
def Timer.current (t : Timer) (now : Int) (unit : Option String)
    (callback : CallbackArg) : Except PyError TimerResult × Timer × List Inv :=
  match t.starttime with
  | none => (.error notRunningError, t, [])
  | some st =>
    let t1 : Timer := { t with result := some (now - st) }
    match t1.get_and_callback unit callback with
    | .error e => (.error e, t1, [])
    | .ok (ret, log) => (.ok ret, t1, log)

/-- `Timer.stop(unit, callback)`: like `current` but also clears
`starttime` (transition to idle) before the conversion/callback step; both
assignments persist when `_get_and_callback` raises for a bad unit. -/
def Timer.stop (t : Timer) (now : Int) (unit : Option String)
    (callback : CallbackArg) : Except PyError TimerResult × Timer × List Inv :=
  match t.starttime with
  | none => (.error notRunningError, t, [])
  | some st =>
    let t1 : Timer := { t with result := some (now - st), starttime := none }
    match t1.get_and_callback unit callback with
    | .error e => (.error e, t1, [])
    | .ok (ret, log) => (.ok ret, t1, log)

/-- `Timer.restart(clear, unit, callback)`: `ret = self.stop(unit, callback)`,
then `self.start(clear=clear)`, then `return ret`; an exception from `stop`
aborts before `start` runs. `now1` is the clock reading of `stop`, `now2`
that of `start`. -/
def Timer.restart (t : Timer) (now1 now2 : Int) (clear : Bool)
    (unit : Option String) (callback : CallbackArg) :
    Except PyError TimerResult × Timer × List Inv :=
  match t.stop now1 unit callback with
  | (.error e, t1, log) => (.error e, t1, log)
  | (.ok ret, t1, log) =>
    match t1.start now2 false clear with
    | (.error e, t2) => (.error e, t2, log)
    | (.ok _, t2) => (.ok ret, t2, log)

/-- `Timer.measure(fn, unit, callback)`: `start()`; call `fn` (its outcome is
the argument `fn : Except ε α`); on an exception from `fn`, run
`stop(callback=False)` and re-raise the original exception (unless that
`stop` itself raises, in which case its exception propagates, as in Python);
on success, `stop(unit, callback)` and return `fn`'s value. The caller's
exceptions `ε` and the library's `PyError` are kept apart in the sum. -/
def Timer.measure {ε α : Type} (t : Timer) (now1 now2 : Int)
    (fn : Except ε α) (unit : Option String) (callback : CallbackArg) :
    Except (ε ⊕ PyError) α × Timer × List Inv :=
  match t.start now1 false true with
  | (.error e, t1) => (.error (.inr e), t1, [])
  | (.ok _, t1) =>
    match fn with
    | .error exc =>
      match t1.stop now2 none .isFalse with
      | (.error e2, t2, log) => (.error (.inr e2), t2, log)
      | (.ok _, t2, log) => (.error (.inl exc), t2, log)
    | .ok ret =>
      match t1.stop now2 unit callback with
      | (.error e2, t2, log) => (.error (.inr e2), t2, log)
      | (.ok _, t2, log) => (.ok ret, t2, log)

/-- The scoped (context-manager) pattern `with t: body`: `__enter__` calls
`start()`; `__exit__` calls `stop(callback=not bool(exc_type))` and returns
`False`, so the body's exception is never suppressed but its callback is. -/
def Timer.scopedRun {ε α : Type} (t : Timer) (now1 now2 : Int)
    (body : Except ε α) : Except (ε ⊕ PyError) α × Timer × List Inv :=
  match t.start now1 false true with
  | (.error e, t1) => (.error (.inr e), t1, [])
  | (.ok _, t1) =>
    match body with
    | .error exc =>
      match t1.stop now2 none .isFalse with
      | (.error e2, t2, log) => (.error (.inr e2), t2, log)
      | (.ok _, t2, log) => (.error (.inl exc), t2, log)
    | .ok ret =>
      match t1.stop now2 none .isTrue with
      | (.error e2, t2, log) => (.error (.inr e2), t2, log)
      | (.ok _, t2, log) => (.ok ret, t2, log)

/-- A Python callable argument: its truthiness bit (`if fn:` in the source
tests truthiness, not presence) and the outcome of calling it with no
arguments. Plain function objects have `truthy = true`. -/
structure PyCallable (ε α : Type) where
  truthy : Bool
  run : Except ε α

/-- The value returned by `wrap`: either the wrapped zero-argument callable
(`timed`, a closure over the timer, the callable and the measure arguments)
or the decorator-generator closure awaiting a callable. -/
inductive WrapReturn (ε α : Type) where
  | timed (timer : Timer) (fn : PyCallable ε α) (unit : Option String)
      (callback : CallbackArg)
  | decorator (timer : Timer) (unit : Option String) (callback : CallbackArg)

/-- `Timer.wrap(fn=None, **kwargs)`: dispatches on `if fn:` — the truthiness
of the argument — returning the wrapped callable for a truthy `fn` and the
decorator-generator closure otherwise. `kwargs` (forwarded to `measure`) are
modelled as the explicit `unit`/`callback` arguments. -/
def Timer.wrap {ε α : Type} (t : Timer) (fn : Option (PyCallable ε α))
    (unit : Option String) (callback : CallbackArg) : WrapReturn ε α :=
  match fn with
  | some c =>
    if c.truthy then .timed t c unit callback
    else .decorator t unit callback
  | none => .decorator t unit callback

/-- Applying the decorator-generator closure to a callable yields the same
`timed` closure `wrap` would have returned directly. -/
def WrapReturn.applyDecorator {ε α : Type} (timer : Timer)
    (unit : Option String) (callback : CallbackArg) (fn : PyCallable ε α) :
    WrapReturn ε α :=
  .timed timer fn unit callback

/-- Invoking the `timed` closure runs `measure` on the captured timer. -/
def WrapReturn.invokeTimed {ε α : Type} (timer : Timer) (fn : PyCallable ε α)
    (unit : Option String) (callback : CallbackArg) (now1 now2 : Int) :
    Except (ε ⊕ PyError) α × Timer × List Inv :=
  timer.measure now1 now2 fn.run unit callback

/-- The module-level mutable state of `timing/__init__.py`: the process-wide
`prevtimer` slot. -/
structure ModuleState where
  prevtimer : Option Timer
deriving DecidableEq, Repr

/-- Module-level `timing.start(*args)`: constructs a `Timer`, stores it in
`prevtimer`, starts it and returns it. Python's `prevtimer` aliases the
returned object, so the slot reflects the object's state after `start`. -/
def timingStart (_m : ModuleState) (unit : String) (callback : Option Nat)
    (now : Int) : Except PyError Timer × ModuleState :=
  match (mkTimer unit callback).start now false true with
  | (.error e, t1) => (.error e, { prevtimer := some t1 })
  | (.ok _, t1) => (.ok t1, { prevtimer := some t1 })

/-- Module-level `timing.measure(fn, **kwargs)`: constructs a `Timer`,
stores it in `prevtimer`, and delegates to `timer.measure(fn)` with default
`unit`/`callback`. The slot aliases the timer, hence holds its post-measure
state. -/
def timingMeasure {ε α : Type} (_m : ModuleState) (fn : Except ε α)
    (unit : String) (callback : Option Nat) (now1 now2 : Int) :
    Except (ε ⊕ PyError) α × ModuleState × List Inv :=
  match (mkTimer unit callback).measure now1 now2 fn none .isTrue with
  | (r, t1, log) => (r, { prevtimer := some t1 }, log)

/-- Module-level `timing.wrap(fn=None, **kwargs)`: constructs a `Timer`,
stores it in `prevtimer` immediately, then dispatches on `if fn:` exactly
like `Timer.wrap`; the closures call `timer.measure(fn)` with default
`unit`/`callback`. Nothing further mutates the timer before return. -/
def timingWrap {ε α : Type} (_m : ModuleState) (fn : Option (PyCallable ε α))
    (unit : String) (callback : Option Nat) :
    WrapReturn ε α × ModuleState :=
  let timer := mkTimer unit callback
  (match fn with
   | some c =>
     if c.truthy then .timed timer c none .isTrue
     else .decorator timer none .isTrue
   | none => .decorator timer none .isTrue,
   { prevtimer := some timer })

/-- The conversion `Timer.get` applies to a stored nanosecond count `n` for
a supported unit `u` (junk value `0` for unsupported units). -/
def convQ (u : String) (n : Int) : ℚ :=
  if u = "nanoseconds" then (n : ℚ)
  else if u = "microseconds" then pyDivNs n 1000
  else if u = "milliseconds" then pyDivNs n 1000000
  else if u = "seconds" then pyDivNs n 1000000000
  else 0

/-- The invocation list produced by delivering `v` to an optional callback. -/
def optInv (cb : Option Nat) (v : TimerResult) : List Inv :=
  match cb with
  | none => []
  | some c => [(c, v)]

/-- The callback `_get_and_callback` ends up invoking, as a function of the
configured callback and the per-call argument. -/
def cbSel (conf : Option Nat) : CallbackArg → Option Nat
  | .isTrue => conf
  | .isFalse => none
  | .func c => some c

/-- The unit a call with optional `unit` argument effectively uses. -/
def effUnit (t : Timer) : Option String → String
  | none => t.unit
  | some u => u

/-- `n` successive calls of `t.get u` with no intervening operation. -/
def getRepeat (t : Timer) (u : Option String) : Nat → List (Except PyError TimerResult)
  | 0 => []
  | n + 1 => t.get u :: getRepeat t u n

lemma supportedUnit_cases {u : String} (h : supportedUnit u = true) :
    u = "seconds" ∨ u = "milliseconds" ∨ u = "microseconds" ∨ u = "nanoseconds" := by
  have h' := h
  simp [supportedUnit] at h'
  tauto

lemma supportedUnit_neg {u : String} (h : supportedUnit u = false) :
    ¬u = "seconds" ∧ ¬u = "milliseconds" ∧ ¬u = "microseconds" ∧ ¬u = "nanoseconds" := by
  have h' := h
  simp [supportedUnit] at h'
  tauto

lemma Timer.get_eq_convQ (t : Timer) (r : Int) (u : String)
    (hr : t.result = some r) (hu : supportedUnit u = true) :
    t.get (some u) = .ok (convQ u r) := by
  rcases supportedUnit_cases hu with h | h | h | h <;> subst h <;>
    simp [Timer.get, convQ, hr]

lemma Timer.get_none_eq (t : Timer) : t.get none = t.get (some t.unit) := rfl

lemma Timer.get_unsupported (t : Timer) (r : Int) (u : String)
    (hr : t.result = some r) (hu : supportedUnit u = false) :
    t.get (some u) = .error (unsupportedUnitError u) := by
  obtain ⟨h1, h2, h3, h4⟩ := supportedUnit_neg hu
  simp [Timer.get, hr, h1, h2, h3, h4]

lemma Timer.gac_eq (t : Timer) (r : Int) (u : String) (cbArg : CallbackArg)
    (hr : t.result = some r) (hu : supportedUnit u = true) :
    t.get_and_callback (some u) cbArg =
      .ok (convQ u r, optInv (cbSel t.callback cbArg) (convQ u r)) := by
  cases cbArg with
  | isTrue =>
    cases hc : t.callback with
    | none =>
      simp [Timer.get_and_callback, Timer.get_eq_convQ t r u hr hu, optInv, cbSel, hc]
    | some c =>
      simp [Timer.get_and_callback, Timer.get_eq_convQ t r u hr hu, optInv, cbSel, hc]
  | isFalse =>
    simp [Timer.get_and_callback, Timer.get_eq_convQ t r u hr hu, optInv, cbSel]
  | func c =>
    simp [Timer.get_and_callback, Timer.get_eq_convQ t r u hr hu, optInv, cbSel]

lemma Timer.gac_unsupported (t : Timer) (r : Int) (u : String) (cbArg : CallbackArg)
    (hr : t.result = some r) (hu : supportedUnit u = false) :
    t.get_and_callback (some u) cbArg = .error (unsupportedUnitError u) := by
  simp [Timer.get_and_callback, Timer.get_unsupported t r u hr hu]

lemma Timer.stop_none_eq (t : Timer) (now : Int) (cbArg : CallbackArg) :
    t.stop now none cbArg = t.stop now (some t.unit) cbArg := rfl

lemma Timer.current_none_eq (t : Timer) (now : Int) (cbArg : CallbackArg) :
    t.current now none cbArg = t.current now (some t.unit) cbArg := rfl

lemma Timer.restart_none_eq (t : Timer) (now1 now2 : Int) (clear : Bool)
    (cbArg : CallbackArg) :
    t.restart now1 now2 clear none cbArg
      = t.restart now1 now2 clear (some t.unit) cbArg := rfl

lemma Timer.stop_running (t : Timer) (st now : Int) (u : String)
    (cbArg : CallbackArg) (hR : t.starttime = some st)
    (hu : supportedUnit u = true) :
    t.stop now (some u) cbArg =
      (.ok (convQ u (now - st)),
       { t with result := some (now - st), starttime := none },
       optInv (cbSel t.callback cbArg) (convQ u (now - st))) := by
  have h1 := Timer.gac_eq
    { t with result := some (now - st), starttime := none } (now - st) u cbArg rfl hu
  simp [Timer.stop, hR, h1]

lemma Timer.current_running (t : Timer) (st now : Int) (u : String)
    (cbArg : CallbackArg) (hR : t.starttime = some st)
    (hu : supportedUnit u = true) :
    t.current now (some u) cbArg =
      (.ok (convQ u (now - st)),
       { t with result := some (now - st) },
       optInv (cbSel t.callback cbArg) (convQ u (now - st))) := by
  have h1 := Timer.gac_eq
    (Timer.mk (some st) (some (now - st)) t.unit t.callback) (now - st) u cbArg rfl hu
  simp [Timer.current, hR, h1]

lemma Timer.restart_running (t : Timer) (st now1 now2 : Int) (clear : Bool)
    (u : String) (cbArg : CallbackArg) (hR : t.starttime = some st)
    (hu : supportedUnit u = true) :
    t.restart now1 now2 clear (some u) cbArg =
      (.ok (convQ u (now1 - st)),
       { t with starttime := some now2,
                result := if clear then none else some (now1 - st) },
       optInv (cbSel t.callback cbArg) (convQ u (now1 - st))) := by
  simp [Timer.restart, Timer.stop_running t st now1 u cbArg hR hu, Timer.start]

lemma Timer.measure_ok {ε α : Type} (t : Timer) (now1 now2 : Int) (a : α)
    (u : String) (cbArg : CallbackArg) (h0 : t.starttime = none)
    (hu : supportedUnit u = true) :
    t.measure now1 now2 (Except.ok a : Except ε α) (some u) cbArg =
      (.ok a,
       { t with starttime := none, result := some (now2 - now1) },
       optInv (cbSel t.callback cbArg) (convQ u (now2 - now1))) := by
  have h1 := Timer.stop_running
    { t with starttime := some now1, result := none } now1 now2 u cbArg rfl hu
  simp [Timer.measure, Timer.start, h0, h1]

lemma Timer.measure_ok_none {ε α : Type} (t : Timer) (now1 now2 : Int) (a : α)
    (cbArg : CallbackArg) (h0 : t.starttime = none)
    (hWF : supportedUnit t.unit = true) :
    t.measure now1 now2 (Except.ok a : Except ε α) none cbArg =
      (.ok a,
       { t with starttime := none, result := some (now2 - now1) },
       optInv (cbSel t.callback cbArg) (convQ t.unit (now2 - now1))) := by
  have h1 := Timer.stop_running
    { t with starttime := some now1, result := none } now1 now2 t.unit cbArg rfl hWF
  have h2 : ({ t with starttime := some now1, result := none } : Timer).stop now2 none cbArg
      = ({ t with starttime := some now1, result := none } : Timer).stop now2 (some t.unit) cbArg := rfl
  simp [Timer.measure, Timer.start, h0, h2, h1]

lemma Timer.measure_err {ε α : Type} (t : Timer) (now1 now2 : Int) (exc : ε)
    (u : Option String) (cbArg : CallbackArg) (h0 : t.starttime = none)
    (hWF : supportedUnit t.unit = true) :
    t.measure now1 now2 (Except.error exc : Except ε α) u cbArg =
      (.error (.inl exc),
       { t with starttime := none, result := some (now2 - now1) }, []) := by
  have h1 := Timer.stop_running
    { t with starttime := some now1, result := none } now1 now2 t.unit .isFalse rfl hWF
  have h2 : ({ t with starttime := some now1, result := none } : Timer).stop now2 none .isFalse
      = ({ t with starttime := some now1, result := none } : Timer).stop now2 (some t.unit) .isFalse := rfl
  simp [Timer.measure, Timer.start, h0, h2, h1, optInv, cbSel]

lemma Timer.scoped_err {ε α : Type} (t : Timer) (now1 now2 : Int) (exc : ε)
    (h0 : t.starttime = none) (hWF : supportedUnit t.unit = true) :
    t.scopedRun now1 now2 (Except.error exc : Except ε α) =
      (.error (.inl exc),
       { t with starttime := none, result := some (now2 - now1) }, []) := by
  have h1 := Timer.stop_running
    { t with starttime := some now1, result := none } now1 now2 t.unit .isFalse rfl hWF
  have h2 : ({ t with starttime := some now1, result := none } : Timer).stop now2 none .isFalse
      = ({ t with starttime := some now1, result := none } : Timer).stop now2 (some t.unit) .isFalse := rfl
  simp [Timer.scopedRun, Timer.start, h0, h2, h1, optInv, cbSel]

/-- Modelled from the spec: the composition "stop, then start" that
`restart` is claimed to refine — compute and return the result exactly as
`stop` would (including callback delivery), then start a fresh run honoring
`clear`; an exception aborts the sequence. -/
def stopThenStart (t : Timer) (now1 now2 : Int) (clear : Bool)
    (unit : Option String) (callback : CallbackArg) :
    Except PyError TimerResult × Timer × List Inv :=
  match t.stop now1 unit callback with
  | (.error e, t1, log) => (.error e, t1, log)
  | (.ok ret, t1, log) =>
    match t1.start now2 false clear with
    | (.error e, t2) => (.error e, t2, log)
    | (.ok _, t2) => (.ok ret, t2, log)

lemma Timer.stop_running_unsupported (t : Timer) (st now : Int) (u : String)
    (cbArg : CallbackArg) (hR : t.starttime = some st)
    (hu : supportedUnit u = false) :
    t.stop now (some u) cbArg =
      (.error (unsupportedUnitError u),
       { t with result := some (now - st), starttime := none }, []) := by
  have h1 := Timer.gac_unsupported
    { t with result := some (now - st), starttime := none } (now - st) u cbArg rfl hu
  simp [Timer.stop, hR, h1]

lemma Timer.current_running_unsupported (t : Timer) (st now : Int) (u : String)
    (cbArg : CallbackArg) (hR : t.starttime = some st)
    (hu : supportedUnit u = false) :
    t.current now (some u) cbArg =
      (.error (unsupportedUnitError u),
       { t with result := some (now - st) }, []) := by
  have h1 := Timer.gac_unsupported
    (Timer.mk (some st) (some (now - st)) t.unit t.callback) (now - st) u cbArg rfl hu
  simp [Timer.current, hR, h1]

/-- **C1.** For every idle, well-formed stopwatch and every callable that
raises a failure, `measure` — and equivalently the scoped enter/exit
pattern — re-raises the caller's original failure unchanged, leaves the
stopwatch idle (`starttime` absent), and invokes no callback for that
measurement. -/
theorem measure_and_scoped_failure_propagation
    {ε α : Type} (t : Timer) (hIdle : t.starttime = none) (hWF : t.WF)
    (now1 now2 : Int) (u : Option String) (cbArg : CallbackArg) (exc : ε) :
    (t.measure now1 now2 (Except.error exc : Except ε α) u cbArg).1
        = .error (.inl exc)
    ∧ (t.measure now1 now2 (Except.error exc : Except ε α) u cbArg).2.1.starttime
        = none
    ∧ (t.measure now1 now2 (Except.error exc : Except ε α) u cbArg).2.2 = []
    ∧ (t.scopedRun now1 now2 (Except.error exc : Except ε α)).1
        = .error (.inl exc)
    ∧ (t.scopedRun now1 now2 (Except.error exc : Except ε α)).2.1.starttime
        = none
    ∧ (t.scopedRun now1 now2 (Except.error exc : Except ε α)).2.2 = [] := by
  have hm := Timer.measure_err (α := α) t now1 now2 exc u cbArg hIdle hWF
  have hs := Timer.scoped_err (α := α) t now1 now2 exc hIdle hWF
  simp [hm, hs]

/-- Witness for C1 at a concrete idle stopwatch and failing callable. -/
theorem measure_and_scoped_failure_propagation_witness :
    ((mkTimer "seconds" (some 0)).measure 3 10 (Except.error 7 : Except Nat Nat)
        none .isTrue).1 = .error (.inl 7)
    ∧ ((mkTimer "seconds" (some 0)).measure 3 10 (Except.error 7 : Except Nat Nat)
        none .isTrue).2.1.starttime = none
    ∧ ((mkTimer "seconds" (some 0)).measure 3 10 (Except.error 7 : Except Nat Nat)
        none .isTrue).2.2 = []
    ∧ ((mkTimer "seconds" (some 0)).scopedRun 3 10
        (Except.error 7 : Except Nat Nat)).1 = .error (.inl 7)
    ∧ ((mkTimer "seconds" (some 0)).scopedRun 3 10
        (Except.error 7 : Except Nat Nat)).2.1.starttime = none
    ∧ ((mkTimer "seconds" (some 0)).scopedRun 3 10
        (Except.error 7 : Except Nat Nat)).2.2 = [] :=
  measure_and_scoped_failure_propagation (mkTimer "seconds" (some 0)) rfl rfl
    3 10 none .isTrue 7

/-- **C2.** On a freshly constructed stopwatch `start` succeeds (idle to
running); a second `start` without `replace` fails with `AlreadyRunning`
leaving the state unchanged; and `stop`/`current`/`restart` on a fresh
stopwatch fail with `NotRunning` and `get` with `NoResult`, each failed
call leaving the stopwatch unchanged. -/
theorem fresh_timer_state_machine (unit : String) (cb : Option Nat)
    (now now2 : Int) (u : Option String) (cbArg : CallbackArg) :
    (mkTimer unit cb).start now false true
        = (.ok (), Timer.mk (some now) none unit cb)
    ∧ (Timer.mk (some now) none unit cb).start now2 false true
        = (.error alreadyRunningError, Timer.mk (some now) none unit cb)
    ∧ (mkTimer unit cb).stop now u cbArg
        = (.error notRunningError, mkTimer unit cb, [])
    ∧ (mkTimer unit cb).current now u cbArg
        = (.error notRunningError, mkTimer unit cb, [])
    ∧ (mkTimer unit cb).restart now now2 true u cbArg
        = (.error notRunningError, mkTimer unit cb, [])
    ∧ (mkTimer unit cb).get u = .error noResultError :=
  ⟨rfl, rfl, rfl, rfl, rfl, rfl⟩

set_option maxRecDepth 100000

/-- **C3, counterexample.** At the stored nanosecond count `n = 2^53 + 1`
the claimed exact cross-unit ratio fails: `get("nanoseconds")` returns `n`
itself, `get("microseconds")` returns the binary64 value
`1152921504606847/128 = 9007199254740.9921875`, and
`microseconds × 1e3 ≠ nanoseconds` — both for the exact product and for the
binary64-rounded product the Python expression would yield. -/
theorem unit_ratio_exactness_counterexample :
    (Timer.mk none (some 9007199254740993) "nanoseconds" none).get
        (some "nanoseconds") = .ok (9007199254740993 : ℚ)
    ∧ (Timer.mk none (some 9007199254740993) "nanoseconds" none).get
        (some "microseconds") = .ok (1152921504606847 / 128 : ℚ)
    ∧ (1152921504606847 / 128 : ℚ) * 1000 ≠ (9007199254740993 : ℚ)
    ∧ fl64 ((1152921504606847 / 128 : ℚ) * 1000) ≠ (9007199254740993 : ℚ) := by
  refine ⟨by with_unfolding_all rfl, by with_unfolding_all rfl, by norm_num, ?_⟩
  have h : fl64 ((1152921504606847 / 128 : ℚ) * 1000) = 9007199254740992 := by
    with_unfolding_all rfl
  rw [h]
  norm_num

/-- **C3, amended.** `get` returns exactly `n` for nanoseconds and, for the
other units, the binary64 value CPython computes for `n/1e3`, `n/1e6`,
`n/1e9` (the int rounded once to binary64, then one correctly-rounded
division); the exact fixed ratios hold between the mathematical quotients
`n`, `n/1e3`, `n/1e6`, `n/1e9`, though not necessarily between the rounded
float values `get` returns. -/
theorem unit_conversion_amended (t : Timer) (r : Int) (hr : t.result = some r) :
    t.get (some "nanoseconds") = .ok (r : ℚ)
    ∧ t.get (some "microseconds") = .ok (pyDivNs r 1000)
    ∧ t.get (some "milliseconds") = .ok (pyDivNs r 1000000)
    ∧ t.get (some "seconds") = .ok (pyDivNs r 1000000000)
    ∧ (r : ℚ) = ((r : ℚ) / 1000) * 1000
    ∧ (r : ℚ) / 1000 = ((r : ℚ) / 1000000) * 1000
    ∧ (r : ℚ) / 1000000 = ((r : ℚ) / 1000000000) * 1000 := by
  refine ⟨?_, ?_, ?_, ?_, by ring, by ring, by ring⟩ <;> simp [Timer.get, hr]

/-- Witness for the amended C3 at a stored count of `10^8` nanoseconds. -/
theorem unit_conversion_amended_witness :
    (Timer.mk none (some 100000000) "seconds" none).get (some "nanoseconds")
        = .ok (100000000 : ℚ)
    ∧ (100000000 : ℚ) = ((100000000 : ℚ) / 1000) * 1000 := by
  obtain ⟨h1, _, _, _, h5, _, _⟩ :=
    unit_conversion_amended (Timer.mk none (some 100000000) "seconds" none)
      100000000 rfl
  exact ⟨h1, h5⟩

/-- **C4.** For `current`, `stop`, `restart` and `measure`, the per-call
callback argument selects exactly one of three behaviors: the literal
`True` selects the stopwatch's configured callback (delivering nothing —
and raising no error — when none is configured, per `optInv`), the literal
`False` suppresses delivery for that call, and an explicitly supplied
function is invoked instead of the configured callback for that call only;
in all three modes the call succeeds. -/
theorem callback_tristate_selection
    (t : Timer) (st : Int) (hR : t.starttime = some st) (hWF : t.WF)
    (t0 : Timer) (h0 : t0.starttime = none) (hWF0 : t0.WF)
    {ε α : Type} (a : α) (now now2 : Int) (f : Nat) :
    (∀ cbArg, (t.current now none cbArg).1 = .ok (convQ t.unit (now - st)))
    ∧ (t.current now none .isTrue).2.2 = optInv t.callback (convQ t.unit (now - st))
    ∧ (t.current now none .isFalse).2.2 = ([] : List Inv)
    ∧ (t.current now none (.func f)).2.2 = [(f, convQ t.unit (now - st))]
    ∧ (∀ cbArg, (t.stop now none cbArg).1 = .ok (convQ t.unit (now - st)))
    ∧ (t.stop now none .isTrue).2.2 = optInv t.callback (convQ t.unit (now - st))
    ∧ (t.stop now none .isFalse).2.2 = ([] : List Inv)
    ∧ (t.stop now none (.func f)).2.2 = [(f, convQ t.unit (now - st))]
    ∧ (∀ cbArg, (t.restart now now2 true none cbArg).1 = .ok (convQ t.unit (now - st)))
    ∧ (t.restart now now2 true none .isTrue).2.2 = optInv t.callback (convQ t.unit (now - st))
    ∧ (t.restart now now2 true none .isFalse).2.2 = ([] : List Inv)
    ∧ (t.restart now now2 true none (.func f)).2.2 = [(f, convQ t.unit (now - st))]
    ∧ (∀ cbArg, (t0.measure now now2 (Except.ok a : Except ε α) none cbArg).1 = .ok a)
    ∧ (t0.measure now now2 (Except.ok a : Except ε α) none .isTrue).2.2
        = optInv t0.callback (convQ t0.unit (now2 - now))
    ∧ (t0.measure now now2 (Except.ok a : Except ε α) none .isFalse).2.2 = ([] : List Inv)
    ∧ (t0.measure now now2 (Except.ok a : Except ε α) none (.func f)).2.2
        = [(f, convQ t0.unit (now2 - now))] := by
  have hc : ∀ cbArg, t.current now none cbArg =
      (.ok (convQ t.unit (now - st)), { t with result := some (now - st) },
       optInv (cbSel t.callback cbArg) (convQ t.unit (now - st))) := by
    intro cbArg
    rw [Timer.current_none_eq]
    exact Timer.current_running t st now t.unit cbArg hR hWF
  have hp : ∀ cbArg, t.stop now none cbArg =
      (.ok (convQ t.unit (now - st)),
       { t with result := some (now - st), starttime := none },
       optInv (cbSel t.callback cbArg) (convQ t.unit (now - st))) := by
    intro cbArg
    rw [Timer.stop_none_eq]
    exact Timer.stop_running t st now t.unit cbArg hR hWF
  have hr : ∀ cbArg, t.restart now now2 true none cbArg =
      (.ok (convQ t.unit (now - st)),
       { t with starttime := some now2,
                result := if true then none else some (now - st) },
       optInv (cbSel t.callback cbArg) (convQ t.unit (now - st))) := by
    intro cbArg
    rw [Timer.restart_none_eq]
    exact Timer.restart_running t st now now2 true t.unit cbArg hR hWF
  have hm : ∀ cbArg, t0.measure now now2 (Except.ok a : Except ε α) none cbArg =
      (.ok a, { t0 with starttime := none, result := some (now2 - now) },
       optInv (cbSel t0.callback cbArg) (convQ t0.unit (now2 - now))) :=
    fun cbArg => Timer.measure_ok_none t0 now now2 a cbArg h0 hWF0
  refine ⟨fun cbArg => by simp [hc cbArg], by simp [hc .isTrue, cbSel],
          by simp [hc .isFalse, cbSel, optInv], by simp [hc (.func f), cbSel, optInv],
          fun cbArg => by simp [hp cbArg], by simp [hp .isTrue, cbSel],
          by simp [hp .isFalse, cbSel, optInv], by simp [hp (.func f), cbSel, optInv],
          fun cbArg => by simp [hr cbArg], by simp [hr .isTrue, cbSel],
          by simp [hr .isFalse, cbSel, optInv], by simp [hr (.func f), cbSel, optInv],
          fun cbArg => by simp [hm cbArg], by simp [hm .isTrue, cbSel],
          by simp [hm .isFalse, cbSel, optInv], by simp [hm (.func f), cbSel, optInv]⟩

/-- Witness for C4: configured callback `5` on a running stopwatch; explicit
override callback `99`. -/
theorem callback_tristate_selection_witness :
    ((Timer.mk (some 2) none "seconds" (some 5)).current 10 none .isTrue).2.2
      = optInv (some 5) (convQ "seconds" 8)
    ∧ ((Timer.mk (some 2) none "seconds" (some 5)).stop 10 none (.func 99)).2.2
      = [(99, convQ "seconds" 8)]
    ∧ ((Timer.mk (some 2) none "seconds" (some 5)).restart 10 11 true none .isFalse).2.2
      = ([] : List Inv) := by
  have h := callback_tristate_selection (Timer.mk (some 2) none "seconds" (some 5))
    2 rfl rfl (mkTimer "milliseconds" none) rfl rfl (ε := Nat) (α := Nat) 42 10 11 99
  exact ⟨h.2.1, h.2.2.2.2.2.2.2.1, h.2.2.2.2.2.2.2.2.2.2.1⟩

/-- **C5.** `restart` is exactly the composition "stop, then start": it
equals `stopThenStart` on every input; on a running, well-formed stopwatch
it returns `stop`'s value, delivers the callback exactly as `stop` would,
ends running with the fresh start time, and honors `clear` — with
`clear = false` the just-computed result stays readable via `get`, with
`clear = true` it is discarded. -/
theorem restart_refines_stop_then_start
    (t : Timer) (st now1 now2 : Int) (clear : Bool) (u : Option String)
    (cbArg : CallbackArg) (hR : t.starttime = some st) (hWF : t.WF)
    (hu : supportedUnit (effUnit t u) = true) :
    (∀ (t' : Timer) (m1 m2 : Int) (c : Bool) (u' : Option String)
        (cb' : CallbackArg),
        t'.restart m1 m2 c u' cb' = stopThenStart t' m1 m2 c u' cb')
    ∧ (t.restart now1 now2 clear u cbArg).1
        = .ok (convQ (effUnit t u) (now1 - st))
    ∧ (t.restart now1 now2 clear u cbArg).1 = (t.stop now1 u cbArg).1
    ∧ (t.restart now1 now2 clear u cbArg).2.2 = (t.stop now1 u cbArg).2.2
    ∧ (t.restart now1 now2 clear u cbArg).2.1.starttime = some now2
    ∧ (clear = false → (t.restart now1 now2 clear u cbArg).2.1.get none
        = .ok (convQ t.unit (now1 - st)))
    ∧ (clear = true → (t.restart now1 now2 clear u cbArg).2.1.result = none
        ∧ (t.restart now1 now2 clear u cbArg).2.1.get none
            = .error noResultError) := by
  have hcomp : ∀ (t' : Timer) (m1 m2 : Int) (c : Bool) (u' : Option String)
      (cb' : CallbackArg),
      t'.restart m1 m2 c u' cb' = stopThenStart t' m1 m2 c u' cb' :=
    fun _ _ _ _ _ _ => rfl
  have hru : t.restart now1 now2 clear u cbArg =
      (.ok (convQ (effUnit t u) (now1 - st)),
       { t with starttime := some now2,
                result := if clear then none else some (now1 - st) },
       optInv (cbSel t.callback cbArg) (convQ (effUnit t u) (now1 - st))) := by
    cases u with
    | none =>
      rw [Timer.restart_none_eq]
      exact Timer.restart_running t st now1 now2 clear t.unit cbArg hR hu
    | some u' =>
      exact Timer.restart_running t st now1 now2 clear u' cbArg hR hu
  have hsu : t.stop now1 u cbArg =
      (.ok (convQ (effUnit t u) (now1 - st)),
       { t with result := some (now1 - st), starttime := none },
       optInv (cbSel t.callback cbArg) (convQ (effUnit t u) (now1 - st))) := by
    cases u with
    | none =>
      rw [Timer.stop_none_eq]
      exact Timer.stop_running t st now1 t.unit cbArg hR hu
    | some u' =>
      exact Timer.stop_running t st now1 u' cbArg hR hu
  refine ⟨hcomp, by simp [hru], by simp [hru, hsu], by simp [hru, hsu],
          by simp [hru], ?_, ?_⟩
  · intro hcl
    subst hcl
    have hg := Timer.get_eq_convQ
      (Timer.mk (some now2) (some (now1 - st)) t.unit t.callback)
      (now1 - st) t.unit rfl hWF
    simp [hru, Timer.get_none_eq]
    exact hg
  · intro hcl
    subst hcl
    refine ⟨by simp [hru], ?_⟩
    simp [hru, Timer.get]

/-- Witness for C5 on a concrete running stopwatch. -/
theorem restart_refines_stop_then_start_witness :
    ((Timer.mk (some 100) (some 999) "milliseconds" (some 1)).restart
        2100 2100 false (some "nanoseconds") .isFalse).1
      = .ok (convQ "nanoseconds" 2000)
    ∧ ((Timer.mk (some 100) (some 999) "milliseconds" (some 1)).restart
        2100 2100 false (some "nanoseconds") .isFalse).2.1.starttime = some 2100
    ∧ ((Timer.mk (some 100) (some 999) "milliseconds" (some 1)).restart
        2100 2100 false (some "nanoseconds") .isFalse).2.1.get none
      = .ok (convQ "milliseconds" 2000) := by
  have h := restart_refines_stop_then_start
    (Timer.mk (some 100) (some 999) "milliseconds" (some 1))
    100 2100 2100 false (some "nanoseconds") .isFalse rfl rfl rfl
  exact ⟨h.2.1, h.2.2.2.2.1, h.2.2.2.2.2.1 rfl⟩

/-- **C6.** For every unit string outside the four supported ones, every
operation that performs a conversion — `get`, `current`, `stop`, `restart`,
`measure` — fails with `UnsupportedUnit`. -/
theorem unsupported_unit_always_fails
    (u : String) (hu : supportedUnit u = false)
    (t : Timer) (st now now2 : Int) (cbArg : CallbackArg)
    {ε α : Type} (a : α) :
    (∀ r : Int, t.result = some r →
        t.get (some u) = .error (unsupportedUnitError u))
    ∧ (t.starttime = some st →
        (t.current now (some u) cbArg).1 = .error (unsupportedUnitError u))
    ∧ (t.starttime = some st →
        (t.stop now (some u) cbArg).1 = .error (unsupportedUnitError u))
    ∧ (t.starttime = some st →
        (t.restart now now2 true (some u) cbArg).1
          = .error (unsupportedUnitError u))
    ∧ (t.starttime = none →
        (t.measure now now2 (Except.ok a : Except ε α) (some u) cbArg).1
          = .error (.inr (unsupportedUnitError u))) := by
  refine ⟨fun r hr => Timer.get_unsupported t r u hr hu, ?_, ?_, ?_, ?_⟩
  · intro hR
    simp [Timer.current_running_unsupported t st now u cbArg hR hu]
  · intro hR
    simp [Timer.stop_running_unsupported t st now u cbArg hR hu]
  · intro hR
    simp [Timer.restart, Timer.stop_running_unsupported t st now u cbArg hR hu]
  · intro h0
    have h1 := Timer.stop_running_unsupported
      { t with starttime := some now, result := none } now now2 u cbArg rfl hu
    simp [Timer.measure, Timer.start, h0, h1]

/-- Witness for C6 at the unit string `"hours"`. -/
theorem unsupported_unit_always_fails_witness :
    (Timer.mk (some 50) (some 3) "seconds" none).get (some "hours")
      = .error (unsupportedUnitError "hours")
    ∧ ((Timer.mk (some 50) (some 3) "seconds" none).stop 60 (some "hours")
        .isTrue).1 = .error (unsupportedUnitError "hours")
    ∧ ((mkTimer "seconds" none).measure 60 61 (Except.ok 5 : Except Nat Nat)
        (some "hours") .isTrue).1
      = .error (.inr (unsupportedUnitError "hours")) := by
  have h := unsupported_unit_always_fails "hours" rfl
    (Timer.mk (some 50) (some 3) "seconds" none) 50 60 61 .isTrue
    (ε := Nat) (α := Nat) 5
  have h' := unsupported_unit_always_fails "hours" rfl
    (mkTimer "seconds" none) 50 60 61 .isTrue (ε := Nat) (α := Nat) 5
  exact ⟨h.1 3 rfl, h.2.2.1 rfl, h'.2.2.2.2 rfl⟩

/-- **C7.** `get` is a pure read accessor: repeated calls with no
intervening operation return the same value every time; the returned value
depends only on the stored `result` and the default `unit` (in particular
not on `starttime`, so no elapsed time is recomputed); and the stored
nanosecond count is returned unmutated on a nanosecond read, conversion
happening only at read time. -/
theorem get_is_pure_idempotent_read (t : Timer) (u : Option String) (n : Nat) :
    getRepeat t u n = List.replicate n (t.get u)
    ∧ (∀ t' : Timer, t'.result = t.result → t'.unit = t.unit →
        t'.get u = t.get u)
    ∧ (∀ r : Int, t.result = some r →
        t.get (some "nanoseconds") = .ok (r : ℚ)) := by
  refine ⟨?_, ?_, ?_⟩
  · induction n with
    | zero => rfl
    | succ k ih => simp [getRepeat, ih, List.replicate]
  · intro t' h1 h2
    simp only [Timer.get, h1, h2]
  · intro r hr
    simp [Timer.get, hr]

/-- Witness for C7: three reads of a stored result, a stopwatch differing
only in `starttime` and `callback`, and the exact nanosecond read-back. -/
theorem get_is_pure_idempotent_read_witness :
    getRepeat (Timer.mk none (some 500) "seconds" none) (some "seconds") 3
      = List.replicate 3
          ((Timer.mk none (some 500) "seconds" none).get (some "seconds"))
    ∧ (Timer.mk (some 4) (some 500) "seconds" (some 9)).get (some "seconds")
      = (Timer.mk none (some 500) "seconds" none).get (some "seconds")
    ∧ (Timer.mk none (some 500) "seconds" none).get (some "nanoseconds")
      = .ok (500 : ℚ) := by
  have h := get_is_pure_idempotent_read
    (Timer.mk none (some 500) "seconds" none) (some "seconds") 3
  exact ⟨h.1, h.2.1 (Timer.mk (some 4) (some 500) "seconds" (some 9)) rfl rfl,
         h.2.2 500 rfl⟩

/-- **C8.** The module-level `wrap` constructs a new stopwatch and records
it in the process-wide `prevtimer` slot immediately — the returned value is
the still-uninvoked closure data, and the slot already holds the freshly
constructed timer — in both calling conventions; and every call to any of
the three convenience functions (`start`, `measure`, `wrap`) overwrites the
slot, whatever it previously held. -/
theorem conveniences_record_prevtimer
    {ε α : Type} (m : ModuleState) (unit : String) (cb : Option Nat)
    (fnc : PyCallable ε α) (fnr : Except ε α) (now now2 : Int) :
    (timingWrap m (some fnc) unit cb).2.prevtimer = some (mkTimer unit cb)
    ∧ (timingWrap (ε := ε) (α := α) m none unit cb).2.prevtimer
        = some (mkTimer unit cb)
    ∧ (timingStart m unit cb now).2.prevtimer
        = some (Timer.mk (some now) none unit cb)
    ∧ (timingMeasure m fnr unit cb now now2).2.1.prevtimer
        = some ((mkTimer unit cb).measure now now2 fnr none .isTrue).2.1 := by
  refine ⟨rfl, rfl, rfl, ?_⟩
  rcases hm : (mkTimer unit cb).measure now now2 fnr none .isTrue with ⟨r, t1, log⟩
  simp [timingMeasure, hm]

/-- **C10.** Both `Timer.wrap` and the module-level `wrap` dispatch on the
truthiness of the callable argument, not on its presence: a supplied
callable whose boolean value is false is treated exactly as an omitted one,
yielding the decorator-generator form. -/
theorem wrap_dispatches_on_truthiness
    {ε α : Type} (t : Timer) (u : Option String) (cbArg : CallbackArg)
    (m : ModuleState) (unit : String) (cb : Option Nat)
    (fnc : PyCallable ε α) (hf : fnc.truthy = false) :
    Timer.wrap t (some fnc) u cbArg = Timer.wrap t none u cbArg
    ∧ Timer.wrap t (some fnc) u cbArg = .decorator t u cbArg
    ∧ timingWrap m (some fnc) unit cb = timingWrap m none unit cb
    ∧ (timingWrap m (some fnc) unit cb).1
        = .decorator (mkTimer unit cb) none .isTrue := by
  refine ⟨?_, ?_, ?_, ?_⟩ <;> simp [Timer.wrap, timingWrap, hf]

/-- Witness for C10 with a falsy callable value. -/
theorem wrap_dispatches_on_truthiness_witness :
    Timer.wrap (mkTimer "seconds" none)
        (some (PyCallable.mk false (Except.ok 3) : PyCallable Nat Nat))
        none .isTrue
      = Timer.wrap (mkTimer "seconds" none) none none .isTrue
    ∧ (timingWrap (ModuleState.mk none)
        (some (PyCallable.mk false (Except.ok 3) : PyCallable Nat Nat))
        "seconds" none).1
      = .decorator (mkTimer "seconds" none) none .isTrue := by
  have h := wrap_dispatches_on_truthiness (mkTimer "seconds" none) none .isTrue
    (ModuleState.mk none) "seconds" none
    (PyCallable.mk false (Except.ok 3) : PyCallable Nat Nat) rfl
  exact ⟨h.1, h.2.2.2⟩

/-- **C9.** When `stop` is called on a running stopwatch with an
unrecognized unit, the `UnsupportedUnit` failure is raised only after the
state has been mutated — the elapsed nanoseconds are stored as the result
and `starttime` is cleared (the stopwatch ends idle), with no rollback; and
`current` likewise stores the new result (staying running) before raising. -/
theorem unit_error_raised_after_mutation
    (u : String) (hu : supportedUnit u = false)
    (t : Timer) (st now : Int) (cbArg : CallbackArg)
    (hR : t.starttime = some st) :
    t.stop now (some u) cbArg
      = (.error (unsupportedUnitError u),
         { t with result := some (now - st), starttime := none }, [])
    ∧ (t.stop now (some u) cbArg).2.1.starttime = none
    ∧ (t.stop now (some u) cbArg).2.1.result = some (now - st)
    ∧ t.current now (some u) cbArg
      = (.error (unsupportedUnitError u),
         { t with result := some (now - st) }, [])
    ∧ (t.current now (some u) cbArg).2.1.starttime = some st
    ∧ (t.current now (some u) cbArg).2.1.result = some (now - st) := by
  have hs := Timer.stop_running_unsupported t st now u cbArg hR hu
  have hc := Timer.current_running_unsupported t st now u cbArg hR hu
  exact ⟨hs, by simp [hs], by simp [hs], hc, by simp [hc, hR], by simp [hc]⟩

/-- Witness for C9 at the unit string `"minutes"` on a running stopwatch. -/
theorem unit_error_raised_after_mutation_witness :
    (Timer.mk (some 40) none "seconds" (some 2)).stop 100 (some "minutes")
        .isTrue
      = (.error (unsupportedUnitError "minutes"),
         Timer.mk none (some 60) "seconds" (some 2), [])
    ∧ (Timer.mk (some 40) none "seconds" (some 2)).current 100 (some "minutes")
        .isTrue
      = (.error (unsupportedUnitError "minutes"),
         Timer.mk (some 40) (some 60) "seconds" (some 2), []) := by
  have h := unit_error_raised_after_mutation "minutes" rfl
    (Timer.mk (some 40) none "seconds" (some 2)) 40 100 .isTrue rfl
  exact ⟨h.1, h.2.2.2.1⟩

end Timing
